import Mathlib

/-!
Verification of the task-bot core (src/bot.py): the input validator
(`parse_task_input`, `normalize_username`), the task store queries
(the SQL in the `tasks`, `mytasks` and `done` handlers) and the
`/done` handler's argument guard, shallowly embedded in Lean.
Strings are modelled at the ASCII level: Python `str.strip` is
`String.trim`, `str.lower` maps ASCII letters, `str.isdigit` is
"non-empty and all ASCII digits".
-/

namespace Bot

/-- The `TaskInput` dataclass produced by `parse_task_input`. -/
structure TaskInput where
  title : String
  assignee : String
  due_date : String
  priority : String
  tags : String
deriving DecidableEq, Repr

deriving instance DecidableEq for Except

/-- Python whitespace for `str.strip` at the ASCII level. -/
def isSpaceChar (c : Char) : Bool :=
  c = ' ' || c = '\t' || c = '\n' || c = '\r' || c = '\x0b' || c = '\x0c'

/-- Python `str.strip()`: drop leading and trailing whitespace. -/
def pyStrip (s : String) : String :=
  ⟨((s.data.dropWhile isSpaceChar).reverse.dropWhile isSpaceChar).reverse⟩

/-- Python `str.split(sep)` for a one-character separator, on char lists:
splitting the empty string yields one empty field. -/
def splitChar (sep : Char) : List Char → List (List Char)
  | [] => [[]]
  | c :: rest =>
    let r := splitChar sep rest
    if c = sep then [] :: r
    else
      match r with
      | [] => [[c]]
      | h :: t => (c :: h) :: t

/-- Python `raw.split("|")`. -/
def pySplitPipe (s : String) : List String :=
  (splitChar '|' s.data).map (fun l => ⟨l⟩)

/-- Python `s.startswith("@")`: the first character is `@`. -/
def startsWithAt (s : String) : Bool :=
  match s.data with
  | [] => false
  | c :: _ => c = '@'

/-- `normalize_username` from bot.py: strip whitespace, prepend `@` when absent. -/
def normalize_username (value : String) : String :=
  let username := pyStrip value
  if startsWithAt username then username else "@" ++ username

/-- ASCII digit test on a character, `48 ≤ code ≤ 57` (regex `\d` at ASCII level). -/
def isDig (c : Char) : Bool := 48 ≤ c.toNat && c.toNat ≤ 57

/-- Numeric value of an ASCII digit character. -/
def digitVal (c : Char) : Nat := c.toNat - 48

/-- CPython strptime directive `%Y`: exactly four digits (regex `\d\d\d\d`). -/
def readYear : List Char → Option (Nat × List Char)
  | a :: b :: c :: d :: rest =>
    if isDig a && isDig b && isDig c && isDig d then
      some (1000 * digitVal a + 100 * digitVal b + 10 * digitVal c + digitVal d, rest)
    else none
  | _ => none

/-- CPython strptime directive `%m`: regex `1[0-2]|0[1-9]|[1-9]`, matched
greedily.  The one-character branch `[1-9]` is taken exactly when the
regex engine would backtrack to it: after a leading `1` (code 49), a
second character in `[0-2]` is consumed by `1[0-2]`, anything else leaves
only the `1` consumed; a leading `0` (code 48) must be followed by
`[1-9]`; a leading `[2-9]` is consumed alone. -/
def readMonth : List Char → Option (Nat × List Char)
  | a :: b :: rest =>
    if a.toNat = 49 then
      if 48 ≤ b.toNat && b.toNat ≤ 50 then some (10 + digitVal b, rest)
      else some (1, b :: rest)
    else if a.toNat = 48 then
      if 49 ≤ b.toNat && b.toNat ≤ 57 then some (digitVal b, rest) else none
    else if 50 ≤ a.toNat && a.toNat ≤ 57 then some (digitVal a, b :: rest)
    else none
  | [a] =>
    if a.toNat = 49 then some (1, [])
    else if a.toNat = 48 then none
    else if 50 ≤ a.toNat && a.toNat ≤ 57 then some (digitVal a, [])
    else none
  | [] => none

/-- CPython strptime directive `%d`: regex `3[01]|[12]\d|0[1-9]|[1-9]`,
matched greedily with the same backtracking discipline as `readMonth`:
a leading `3` (code 51) takes a following `[01]`, else stands alone;
a leading `1` or `2` takes any following digit, else stands alone;
a leading `0` must be followed by `[1-9]`; a leading `[4-9]` stands
alone. -/
def readDay : List Char → Option (Nat × List Char)
  | a :: b :: rest =>
    if a.toNat = 51 then
      if b.toNat = 48 || b.toNat = 49 then some (30 + digitVal b, rest)
      else some (3, b :: rest)
    else if a.toNat = 49 || a.toNat = 50 then
      if isDig b then some (10 * digitVal a + digitVal b, rest)
      else some (digitVal a, b :: rest)
    else if a.toNat = 48 then
      if 49 ≤ b.toNat && b.toNat ≤ 57 then some (digitVal b, rest) else none
    else if 52 ≤ a.toNat && a.toNat ≤ 57 then some (digitVal a, b :: rest)
    else none
  | [a] =>
    if a.toNat = 51 then some (3, [])
    else if a.toNat = 49 || a.toNat = 50 then some (digitVal a, [])
    else if a.toNat = 48 then none
    else if 52 ≤ a.toNat && a.toNat ≤ 57 then some (digitVal a, [])
    else none
  | [] => none

/-- Gregorian leap-year rule, as in Python's `datetime`. -/
def isLeap (y : Nat) : Bool := y % 4 = 0 && (y % 100 ≠ 0 || y % 400 = 0)

/-- Length of a month, as validated by Python's `datetime` constructor. -/
def daysInMonth (y m : Nat) : Nat :=
  if m = 2 then (if isLeap y then 29 else 28)
  else if m = 4 || m = 6 || m = 9 || m = 11 then 30
  else 31

/-- `datetime.strptime(s, "%Y-%m-%d")` succeeds: the strptime regex
`\d\d\d\d-(1[0-2]|0[1-9]|[1-9])-(3[01]|[12]\d|0[1-9]|[1-9])` matches the
whole string (strptime rejects unconverted trailing data), and the
resulting triple is a constructible `datetime` (year at least 1, day within
the month). -/
def strptime_Ymd (s : String) : Bool :=
  match readYear s.toList with
  | none => false
  | some (y, r1) =>
    match r1 with
    | [] => false
    | c1 :: r2 =>
      if c1 = '-' then
        match readMonth r2 with
        | none => false
        | some (m, r3) =>
          match r3 with
          | [] => false
          | c2 :: r4 =>
            if c2 = '-' then
              match readDay r4 with
              | none => false
              | some (d, r5) => r5.isEmpty && 1 ≤ y && d ≤ daysInMonth y m
            else false
      else false

/-- ASCII lowercasing, Python `str.lower` restricted to ASCII. -/
def strLower (s : String) : String := ⟨s.data.map Char.toLower⟩

/-- The literal usage message raised by `parse_task_input` on a wrong field count. -/
def wrong_count_message : String :=
  "Нужен формат: /newtask Заголовок | @исполнитель | YYYY-MM-DD | low|medium|high | тег1,тег2"

/-- The literal message raised by `parse_task_input` on an empty title. -/
def empty_title_message : String := "Заголовок задачи не может быть пустым."

/-- The literal message raised by `parse_task_input` on a bad due date. -/
def bad_date_message : String := "Дата должна быть в формате YYYY-MM-DD."

/-- The literal message raised by `parse_task_input` on a bad priority. -/
def bad_priority_message : String := "Приоритет: low, medium или high."

/-- `parse_task_input` from bot.py: split the raw string on the pipe
delimiter, trim each part, require exactly five parts, then validate
title (non-empty), assignee (normalized, cannot fail), due date
(`strptime "%Y-%m-%d"`), priority (lowercased member of low/medium/high);
tags pass through verbatim.  A raised `ValueError` is the `.error` case
carrying the literal message. -/
def parse_task_input (raw : String) : Except String TaskInput :=
  match (pySplitPipe raw).map pyStrip with
  | [title, assignee0, due_date, priority, tags] =>
    if title = "" then .error empty_title_message
    else
      let assignee := normalize_username assignee0
      if strptime_Ymd due_date = false then .error bad_date_message
      else
        let normalized_priority := strLower priority
        if normalized_priority = "low" || normalized_priority = "medium" ||
            normalized_priority = "high" then
          .ok { title := title, assignee := assignee, due_date := due_date,
                priority := normalized_priority, tags := tags }
        else .error bad_priority_message
  | _ => .error wrong_count_message

/-- A row of the `tasks` table (schema in `init_db`). -/
structure Task where
  id : Nat
  chat_id : Int
  created_by_id : Int
  created_by_username : String
  title : String
  assignee_username : String
  due_date : String
  priority : String
  tags : String
  status : String
  created_at : String
  completed_at : Option String
deriving DecidableEq, Repr

/-- Lexicographic strict order on char lists by code point; on ASCII data
this is SQLite's BINARY collation (memcmp of the UTF-8 bytes). -/
def charListLt : List Char → List Char → Bool
  | [], [] => false
  | [], _ :: _ => true
  | _ :: _, [] => false
  | a :: as, b :: bs => a.toNat < b.toNat || (a.toNat = b.toNat && charListLt as bs)

/-- SQLite TEXT comparison (BINARY collation) on strings. -/
def strLtb (s t : String) : Bool := charListLt s.data t.data

/-- The `ORDER BY due_date ASC, priority DESC, id DESC` order of the
`tasks` and `mytasks` queries.  SQLite compares the TEXT columns
`due_date` and `priority` with the default BINARY collation, i.e.
byte-wise on the stored text. -/
def taskLE (a b : Task) : Prop :=
  strLtb a.due_date b.due_date = true ∨
    (a.due_date = b.due_date ∧
      (strLtb b.priority a.priority = true ∨ (b.priority = a.priority ∧ b.id ≤ a.id)))

instance : DecidableRel taskLE := fun a b => by unfold taskLE; infer_instance

/-- The query of the `/tasks` handler:
`SELECT * FROM tasks WHERE chat_id = ? AND status = 'open' ORDER BY
due_date ASC, priority DESC, id DESC`. -/
def list_open (db : List Task) (chat : Int) : List Task :=
  List.insertionSort taskLE
    (db.filter (fun t => decide (t.chat_id = chat ∧ t.status = "open")))

/-- The query of the `/mytasks` handler: as `list_open` with the extra
conjunct `assignee_username = ?`. -/
def list_open_for_assignee (db : List Task) (chat : Int) (handle : String) : List Task :=
  List.insertionSort taskLE
    (db.filter (fun t =>
      decide (t.chat_id = chat ∧ t.status = "open" ∧ t.assignee_username = handle)))

/-- The store part of the `/done` handler: `SELECT * FROM tasks WHERE
id = ? AND chat_id = ?` (fetchone); if no row, `none` (the handler replies
"Задача не найдена." and performs no write); otherwise the UPDATE
`SET status = 'done', completed_at = CURRENT_TIMESTAMP WHERE id = ?`
runs and commits. -/
def complete (db : List Task) (chat : Int) (task_id : Nat) (now : String) :
    Option (List Task) :=
  if db.any (fun t => decide (t.id = task_id ∧ t.chat_id = chat)) then
    some (db.map (fun t =>
      if t.id = task_id then { t with status := "done", completed_at := some now } else t))
  else none

/-- Python `str.isdigit` at the ASCII level: non-empty and every character
a decimal digit. -/
def pyIsDigit (s : String) : Bool := !s.isEmpty && s.toList.all isDig

/-- Decimal value of a digit string, Python `int`. -/
def strToNat (s : String) : Nat := s.toList.foldl (fun n c => 10 * n + digitVal c) 0

/-- Replies the `/done` handler can produce. -/
inductive DoneReply where
  | usage
  | notFound
  | closed (id : Nat)
deriving DecidableEq, Repr

/-- The `/done` handler: if the argument list is not a single `isdigit`
token, reply with the usage text and touch nothing; otherwise convert the
token with `int` and run the lookup-then-update against the store.
Returns the store after the command together with the reply. -/
def done_handler (db : List Task) (chat : Int) (args : List String) (now : String) :
    List Task × DoneReply :=
  match args with
  | [a] =>
    if pyIsDigit a then
      let task_id := strToNat a
      match complete db chat task_id now with
      | none => (db, .notFound)
      | some db2 => (db2, .closed task_id)
    else (db, .usage)
  | _ => (db, .usage)

/-- The INSERT of the `newtask` handler: a fresh autoincrement id, the
validated fields, and the schema defaults `status='open'`,
`created_at=CURRENT_TIMESTAMP`, `completed_at=NULL`. -/
def create (db : List Task) (chat : Int) (creator_id : Int) (creator_username : String)
    (req : TaskInput) (now : String) : List Task × Nat :=
  let new_id := (db.foldl (fun m t => max m t.id) 0) + 1
  let t : Task :=
    { id := new_id, chat_id := chat, created_by_id := creator_id,
      created_by_username := normalize_username creator_username,
      title := req.title, assignee_username := req.assignee,
      due_date := req.due_date, priority := req.priority, tags := req.tags,
      status := "open", created_at := now, completed_at := none }
  (db ++ [t], new_id)

/-- Modelled from the spec: the exact date shape claim C2 asserts — a
four-digit year, a dash, a two-digit month, a dash and a two-digit day,
nothing else, the whole naming a representable calendar date (month and
day in range, year positive). -/
def exactYMD (s : String) : Bool :=
  match s.toList with
  | [y1, y2, y3, y4, '-', m1, m2, '-', d1, d2] =>
    isDig y1 && isDig y2 && isDig y3 && isDig y4 && isDig m1 && isDig m2 &&
      isDig d1 && isDig d2 &&
      1 ≤ 1000 * digitVal y1 + 100 * digitVal y2 + 10 * digitVal y3 + digitVal y4 &&
      1 ≤ 10 * digitVal m1 + digitVal m2 &&
      10 * digitVal m1 + digitVal m2 ≤ 12 &&
      1 ≤ 10 * digitVal d1 + digitVal d2 &&
      10 * digitVal d1 + digitVal d2 ≤
        daysInMonth
          (1000 * digitVal y1 + 100 * digitVal y2 + 10 * digitVal y3 + digitVal y4)
          (10 * digitVal m1 + digitVal m2)
  | _ => false

/-- The argument guard of the `/done` handler:
`len(context.args) == 1 and context.args[0].isdigit()`. -/
def goodDoneArgs (args : List String) : Bool :=
  match args with
  | [s] => pyIsDigit s
  | _ => false

/-- A concrete open task with priority `high`, used to evaluate the store
operations on explicit inputs. -/
def sampleHigh : Task :=
  { id := 1, chat_id := 1, created_by_id := 9, created_by_username := "@u",
    title := "A", assignee_username := "@a", due_date := "2024-06-01",
    priority := "high", tags := "", status := "open", created_at := "T0",
    completed_at := none }

/-- A later task in the same chat with the same due date and priority `medium`. -/
def sampleMedium : Task := { sampleHigh with id := 2, priority := "medium", title := "B" }

/-- A task that lives in a different chat scope. -/
def sampleOther : Task := { sampleHigh with id := 5, chat_id := 2, title := "C" }

/-- An already-completed task, `completed_at` set to `"T1"`. -/
def sampleDone : Task := { sampleHigh with status := "done", completed_at := some "T1" }

/-- `sampleDone` after a second completion at time `"T2"`. -/
def sampleDoneRe : Task := { sampleDone with completed_at := some "T2" }

/-- A concrete validated request, used to instantiate `create`. -/
def sampleReq : TaskInput :=
  { title := "t", assignee := "@a", due_date := "2024-01-01", priority := "low",
    tags := "x" }

/-- C1: the claim says that among open tasks with equal due date every
`high` task precedes every `medium` task.  The code orders by
`priority DESC` on the TEXT column, i.e. descending byte-wise, and
`"medium" > "low" > "high"` byte-wise: on a store holding a `high` task
(id 1) and a `medium` task (id 2) with the same due date, both `/tasks`
and `/mytasks` list the `medium` task first. -/
theorem list_open_orders_medium_before_high :
    (list_open [sampleHigh, sampleMedium] 1).map Task.priority = ["medium", "high"] ∧
      (list_open_for_assignee [sampleHigh, sampleMedium] 1 "@a").map Task.priority =
        ["medium", "high"] := by
  decide

/-- C9: `normalize_username` strips surrounding whitespace and prepends
`@` exactly when the stripped value does not already start with `@`; in
particular `"bob"`, `"@bob"` and `"  bob  "` all normalize to `"@bob"`,
and the empty string normalizes to `"@"` without being rejected. -/
theorem normalize_username_spec (v : String) :
    (startsWithAt (pyStrip v) = true → normalize_username v = pyStrip v) ∧
      (startsWithAt (pyStrip v) = false → normalize_username v = "@" ++ pyStrip v) ∧
      normalize_username "bob" = "@bob" ∧ normalize_username "@bob" = "@bob" ∧
      normalize_username "  bob  " = "@bob" ∧ normalize_username "" = "@" := by
  refine ⟨?_, ?_, by decide, by decide, by decide, by decide⟩
  · intro h
    unfold normalize_username
    simp [h]
  · intro h
    unfold normalize_username
    simp [h]

/-- C9 witness: `normalize_username` prepends `@` to `"bob"`. -/
theorem normalize_username_spec_witness : normalize_username "bob" = "@" ++ pyStrip "bob" :=
  (normalize_username_spec "bob").2.1 (by decide)

/-- C10: whenever the `/done` argument list is not exactly one token of
decimal digits (missing argument, several tokens, non-numeric text, a
negative number), the handler replies with the usage message and returns
the store untouched; the result is the same for every store, so the store
is not consulted. -/
theorem done_handler_usage_on_bad_args (db : List Task) (chat : Int) (args : List String)
    (now : String) (h : goodDoneArgs args = false) :
    done_handler db chat args now = (db, .usage) := by
  rcases args with _ | ⟨a, _ | ⟨b, rest⟩⟩
  · rfl
  · have h2 : pyIsDigit a = false := by simpa [goodDoneArgs] using h
    unfold done_handler
    simp [h2]
  · rfl

/-- C10 witness: `/done -1` replies with the usage message and leaves the
store unchanged. -/
theorem done_handler_usage_on_bad_args_witness :
    done_handler [sampleHigh] 1 ["-1"] "T2" = ([sampleHigh], .usage) :=
  done_handler_usage_on_bad_args [sampleHigh] 1 ["-1"] "T2" (by decide)

/-- C4: when no task with the given id exists in the given chat scope —
including an id that exists only in a different chat — the `/done` lookup
finds no row, the handler replies not-found, and the store (hence every
task in its real scope) is returned unchanged. -/
theorem complete_not_found_no_mutation (db : List Task) (chat : Int) (tid : Nat)
    (now : String) (s : String) (hdig : pyIsDigit s = true) (hval : strToNat s = tid)
    (h : ∀ t ∈ db, ¬(t.id = tid ∧ t.chat_id = chat)) :
    complete db chat tid now = none ∧
      done_handler db chat [s] now = (db, .notFound) := by
  have hc : ¬∃ t ∈ db, t.id = tid ∧ t.chat_id = chat := by
    rintro ⟨t, ht, hcond⟩
    exact h t ht hcond
  have hnone : complete db chat tid now = none := by
    unfold complete
    simp only [List.any_eq_true, decide_eq_true_eq]
    rw [if_neg hc]
  refine ⟨hnone, ?_⟩
  unfold done_handler
  simp [hdig, hval, hnone]

/-- C4 witness: the store holds only task 5 in chat 2; `/done 5` issued
from chat 1 reports not-found and the task in chat 2 is untouched. -/
theorem complete_not_found_no_mutation_witness :
    complete [sampleOther] 1 5 "T2" = none ∧
      done_handler [sampleOther] 1 ["5"] "T2" = ([sampleOther], .notFound) :=
  complete_not_found_no_mutation [sampleOther] 1 5 "T2" "5" (by decide) (by decide)
    (by decide)

/-- C6: `list_open` returns exactly the tasks of the given chat scope
whose status is `open` — membership in the result is equivalent to
membership in the store with matching `chat_id` and status `open` — and a
scope with no open tasks yields the empty sequence. -/
theorem list_open_exactly_scope (db : List Task) (chat : Int) (t : Task) :
    (t ∈ list_open db chat ↔ t ∈ db ∧ t.chat_id = chat ∧ t.status = "open") ∧
      ((∀ u ∈ db, ¬(u.chat_id = chat ∧ u.status = "open")) → list_open db chat = []) := by
  constructor
  · unfold list_open
    rw [(List.perm_insertionSort taskLE _).mem_iff, List.mem_filter]
    simp [and_assoc]
  · intro h
    unfold list_open
    have hf : db.filter (fun t => decide (t.chat_id = chat ∧ t.status = "open")) = [] := by
      rw [List.filter_eq_nil_iff]
      intro u hu
      simpa using h u hu
    rw [hf]
    rfl

/-- C6 witness: the open task of chat 1 is listed, and a scope whose only
task is `done` lists nothing. -/
theorem list_open_exactly_scope_witness :
    (sampleHigh ∈ list_open [sampleHigh] 1 ↔
      sampleHigh ∈ [sampleHigh] ∧ sampleHigh.chat_id = 1 ∧ sampleHigh.status = "open") ∧
      list_open [sampleDone] 1 = [] :=
  ⟨(list_open_exactly_scope [sampleHigh] 1 sampleHigh).1,
    (list_open_exactly_scope [sampleDone] 1 sampleHigh).2 (by decide)⟩

/-- C7: completing an in-scope open task succeeds, every task with that id
ends up `done` with `completed_at` set to the current time, and the task no
longer appears in a subsequent `list_open` of the scope. -/
theorem complete_open_task (db : List Task) (chat : Int) (tsk : Task) (now : String)
    (hmem : tsk ∈ db) (hchat : tsk.chat_id = chat) (hopen : tsk.status = "open") :
    ∃ db2, complete db chat tsk.id now = some db2 ∧
      (∀ u ∈ db2, u.id = tsk.id → u.status = "done" ∧ u.completed_at = some now) ∧
      ∀ u ∈ list_open db2 chat, u.id ≠ tsk.id := by
  have hany : db.any (fun t => decide (t.id = tsk.id ∧ t.chat_id = chat)) = true := by
    rw [List.any_eq_true]
    exact ⟨tsk, hmem, by simp [hchat]⟩
  have hstat : ∀ u ∈ db.map (fun t =>
      if t.id = tsk.id then { t with status := "done", completed_at := some now } else t),
      u.id = tsk.id → u.status = "done" ∧ u.completed_at = some now := by
    intro u hu hid
    rcases List.mem_map.mp hu with ⟨t, ht, rfl⟩
    by_cases hteq : t.id = tsk.id
    · simp [hteq]
    · rw [if_neg hteq] at hid ⊢
      exact absurd hid hteq
  refine ⟨_, ?_, hstat, ?_⟩
  · unfold complete
    rw [hany]
    rfl
  · intro u hu hideq
    have h1 : u ∈ db.map (fun t =>
        if t.id = tsk.id then { t with status := "done", completed_at := some now } else t) ∧
        u.chat_id = chat ∧ u.status = "open" := by
      unfold list_open at hu
      have hmemf := (List.perm_insertionSort taskLE _).mem_iff.mp hu
      rw [List.mem_filter] at hmemf
      simpa [and_assoc] using hmemf
    have h2 := hstat u h1.1 hideq
    exact absurd (h2.1 ▸ h1.2.2) (by decide)

/-- C7 witness: completing the open task 1 of chat 1 succeeds. -/
theorem complete_open_task_witness : (complete [sampleHigh] 1 sampleHigh.id "T2").isSome = true := by
  obtain ⟨db2, h1, -, -⟩ :=
    complete_open_task [sampleHigh] 1 sampleHigh "T2" (by decide) (by decide) (by decide)
  rw [h1]
  rfl

/-- C3 counterexample: the claim says `completed_at`, once set, is never
changed again.  On a store holding task 1 already `done` with
`completed_at = "T1"`, `/done 1` succeeds again and overwrites
`completed_at` with the new timestamp `"T2"`. -/
theorem completed_at_overwritten_on_recomplete :
    sampleDone.status = "done" ∧ sampleDone.completed_at = some "T1" ∧
      complete [sampleDone] 1 1 "T2" = some [sampleDoneRe] ∧
      sampleDoneRe.completed_at = some "T2" ∧
      sampleDoneRe.completed_at ≠ sampleDone.completed_at := by
  decide

/-- C3 amended: a freshly created task starts `open` with null
`completed_at`; a successful `complete` maps every task carrying the
target id to status `done` with `completed_at` set to the current
timestamp — overwriting any previous value when the task was already done
— leaves every other task untouched, and never turns a `done` task back
into an `open` one. -/
theorem status_transitions (db db2 : List Task) (chat creator_id : Int)
    (creator_username : String) (req : TaskInput) (tid : Nat) (now : String) :
    (∀ t ∈ (create db chat creator_id creator_username req now).1,
        t ∈ db ∨ (t.status = "open" ∧ t.completed_at = none)) ∧
      (complete db chat tid now = some db2 →
        List.Forall₂ (fun t t2 =>
          (t.id ≠ tid → t2 = t) ∧
          (t.id = tid → t2 = { t with status := "done", completed_at := some now }) ∧
          (t.status = "done" → t2.status = "done")) db db2) := by
  constructor
  · intro t ht
    unfold create at ht
    rw [List.mem_append] at ht
    rcases ht with ht | ht
    · exact Or.inl ht
    · rw [List.mem_singleton] at ht
      subst ht
      exact Or.inr ⟨rfl, rfl⟩
  · intro h
    unfold complete at h
    split at h
    · injection h with h2
      subst h2
      rw [List.forall₂_map_right_iff]
      rw [List.forall₂_same]
      intro t ht
      by_cases hid : t.id = tid
      · refine ⟨fun hne => absurd hid hne, fun _ => by rw [if_pos hid], fun _ => ?_⟩
        rw [if_pos hid]
      · refine ⟨fun _ => by rw [if_neg hid], fun heq => absurd heq hid, fun hd => ?_⟩
        rw [if_neg hid]
        exact hd
    · exact absurd h (by simp)

/-- C3 amended witness: re-completing the already-done task 1 at `"T2"`
rewrites it to the `done` record carrying `completed_at = "T2"`. -/
theorem status_transitions_witness :
    sampleDoneRe = { sampleDone with status := "done", completed_at := some "T2" } := by
  have h := (status_transitions [sampleDone] [sampleDoneRe] 1 9 "u" sampleReq 1 "T2").2
    (by decide)
  cases h with
  | cons hrel htail => exact hrel.2.1 (by decide)

/-- Full case analysis of `parse_task_input`: wrong field count, then the
left-to-right field checks. -/
lemma parse_task_input_characterization (raw : String) :
    (((pySplitPipe raw).map pyStrip).length ≠ 5 →
        parse_task_input raw = .error wrong_count_message) ∧
      (∀ t a d p g, (pySplitPipe raw).map pyStrip = [t, a, d, p, g] →
        (t = "" → parse_task_input raw = .error empty_title_message) ∧
        (t ≠ "" → strptime_Ymd d = false →
          parse_task_input raw = .error bad_date_message) ∧
        (t ≠ "" → strptime_Ymd d = true →
          strLower p ≠ "low" → strLower p ≠ "medium" → strLower p ≠ "high" →
          parse_task_input raw = .error bad_priority_message) ∧
        (t ≠ "" → strptime_Ymd d = true →
          (strLower p = "low" ∨ strLower p = "medium" ∨ strLower p = "high") →
          parse_task_input raw = .ok { title := t, assignee := normalize_username a,
                                          due_date := d, priority := strLower p,
                                          tags := g })) := by
  constructor
  · intro hlen
    unfold parse_task_input
    split
    case _ t a d p g heq => exact absurd (by rw [heq]; rfl) hlen
    case _ => rfl
  · intro t a d p g heq
    refine ⟨?_, ?_, ?_, ?_⟩
    · intro ht
      unfold parse_task_input
      rw [heq]
      simp [ht]
    · intro ht hd
      unfold parse_task_input
      rw [heq]
      simp [ht, hd]
    · intro ht hd hp1 hp2 hp3
      unfold parse_task_input
      rw [heq]
      simp [ht, hd, hp1, hp2, hp3]
    · intro ht hd hp
      unfold parse_task_input
      rw [heq]
      rcases hp with hp | hp | hp <;> simp [ht, hd, hp]

/-- C5: `parse_task_input` splits on the pipe delimiter and trims each
field; any field count other than 5 yields the wrong-field-count error
carrying the usage message, and with 5 fields validation runs left to
right — empty title first, then the due date, then the priority — the
first violation being returned, and when nothing is violated the complete
`TaskInput` is produced (tags passed through verbatim). -/
theorem parse_first_violation (raw : String) :
    (((pySplitPipe raw).map pyStrip).length ≠ 5 →
        parse_task_input raw = .error wrong_count_message) ∧
      (∀ t a d p g, (pySplitPipe raw).map pyStrip = [t, a, d, p, g] →
        (t = "" → parse_task_input raw = .error empty_title_message) ∧
        (t ≠ "" → strptime_Ymd d = false →
          parse_task_input raw = .error bad_date_message) ∧
        (t ≠ "" → strptime_Ymd d = true →
          strLower p ≠ "low" → strLower p ≠ "medium" → strLower p ≠ "high" →
          parse_task_input raw = .error bad_priority_message) ∧
        (t ≠ "" → strptime_Ymd d = true →
          (strLower p = "low" ∨ strLower p = "medium" ∨ strLower p = "high") →
          parse_task_input raw = .ok { title := t, assignee := normalize_username a,
                                          due_date := d, priority := strLower p,
                                          tags := g })) :=
  parse_task_input_characterization raw

/-- C5 witness: a two-field input fails with the usage message, and a
fully valid five-field input produces the complete request. -/
theorem parse_first_violation_witness :
    parse_task_input "a|b" = .error wrong_count_message ∧
      parse_task_input "Ship report | alice | 2024-03-01 | high | urgent,q1" =
        .ok { title := "Ship report", assignee := normalize_username "alice",
              due_date := "2024-03-01", priority := strLower "high",
              tags := "urgent,q1" } := by
  constructor
  · exact (parse_first_violation "a|b").1 (by decide)
  · exact ((parse_first_violation "Ship report | alice | 2024-03-01 | high | urgent,q1").2
      "Ship report" "alice" "2024-03-01" "high" "urgent,q1" (by decide)).2.2.2
      (by decide) (by decide) (Or.inr (Or.inr (by decide)))

/-- C8: with valid earlier fields, a priority field whose ASCII
lowercasing is `low`, `medium` or `high` is accepted and stored
lowercased; any other priority fails with the priority-format error; and
every successfully produced request carries one of the three lowercase
priorities. -/
theorem parse_priority_case_insensitive (raw t a d p g : String)
    (hparts : (pySplitPipe raw).map pyStrip = [t, a, d, p, g])
    (ht : t ≠ "") (hd : strptime_Ymd d = true) :
    ((strLower p = "low" ∨ strLower p = "medium" ∨ strLower p = "high") →
        parse_task_input raw = .ok { title := t, assignee := normalize_username a,
                                        due_date := d, priority := strLower p,
                                        tags := g }) ∧
      ((strLower p ≠ "low" ∧ strLower p ≠ "medium" ∧ strLower p ≠ "high") →
        parse_task_input raw = .error bad_priority_message) ∧
      ∀ r, parse_task_input raw = .ok r →
        r.priority = strLower p ∧
          (r.priority = "low" ∨ r.priority = "medium" ∨ r.priority = "high") := by
  refine ⟨?_, ?_, ?_⟩
  · intro hp
    exact ((parse_task_input_characterization raw).2 t a d p g hparts).2.2.2 ht hd hp
  · intro hp
    exact ((parse_task_input_characterization raw).2 t a d p g hparts).2.2.1 ht hd hp.1 hp.2.1 hp.2.2
  · intro r hr
    by_cases hp1 : strLower p = "low"
    · rw [((parse_task_input_characterization raw).2 t a d p g hparts).2.2.2 ht hd (Or.inl hp1)] at hr
      injection hr with hr2
      rw [← hr2, hp1]
      exact ⟨rfl, Or.inl rfl⟩
    by_cases hp2 : strLower p = "medium"
    · rw [((parse_task_input_characterization raw).2 t a d p g hparts).2.2.2 ht hd
        (Or.inr (Or.inl hp2))] at hr
      injection hr with hr2
      rw [← hr2, hp2]
      exact ⟨rfl, Or.inr (Or.inl rfl)⟩
    by_cases hp3 : strLower p = "high"
    · rw [((parse_task_input_characterization raw).2 t a d p g hparts).2.2.2 ht hd
        (Or.inr (Or.inr hp3))] at hr
      injection hr with hr2
      rw [← hr2, hp3]
      exact ⟨rfl, Or.inr (Or.inr rfl)⟩
    · rw [((parse_task_input_characterization raw).2 t a d p g hparts).2.2.1 ht hd hp1 hp2 hp3] at hr
      exact absurd hr (by simp)

/-- C8 witness: the priority field `HIGH` is accepted and stored as `high`. -/
theorem parse_priority_case_insensitive_witness :
    parse_task_input "t | a | 2024-01-01 | HIGH | g" =
      .ok { title := "t", assignee := normalize_username "a", due_date := "2024-01-01",
            priority := strLower "HIGH", tags := "g" } :=
  (parse_priority_case_insensitive "t | a | 2024-01-01 | HIGH | g"
    "t" "a" "2024-01-01" "HIGH" "g" (by decide) (by decide) (by decide)).1
    (Or.inr (Or.inr (by decide)))

lemma isDig_bounds {c : Char} (h : isDig c = true) : 48 ≤ c.toNat ∧ c.toNat ≤ 57 := by
  simpa [isDig] using h

lemma daysInMonth_le_31 (y m : Nat) : daysInMonth y m ≤ 31 := by
  unfold daysInMonth
  split
  · split <;> omega
  · split <;> omega

lemma readYear_digits (a b c d : Char) (rest : List Char)
    (ha : isDig a = true) (hb : isDig b = true) (hc : isDig c = true)
    (hd : isDig d = true) :
    readYear (a :: b :: c :: d :: rest) =
      some (1000 * digitVal a + 100 * digitVal b + 10 * digitVal c + digitVal d, rest) := by
  unfold readYear
  simp [ha, hb, hc, hd]

lemma readMonth_two (m1 m2 : Char) (rest : List Char)
    (h1 : isDig m1 = true) (h2 : isDig m2 = true)
    (hlo : 1 ≤ 10 * digitVal m1 + digitVal m2)
    (hhi : 10 * digitVal m1 + digitVal m2 ≤ 12) :
    readMonth (m1 :: m2 :: rest) = some (10 * digitVal m1 + digitVal m2, rest) := by
  have hb1 := isDig_bounds h1
  have hb2 := isDig_bounds h2
  simp only [digitVal] at hlo hhi
  have hcase : m1.toNat = 48 ∨ m1.toNat = 49 := by omega
  rcases hcase with h | h
  · simp only [readMonth]
    rw [if_neg (by omega), if_pos h,
      if_pos (by simp only [Bool.and_eq_true, decide_eq_true_eq]; omega)]
    simp only [Option.some.injEq, Prod.mk.injEq, digitVal, and_true]
    all_goals omega
  · simp only [readMonth]
    rw [if_pos h,
      if_pos (by simp only [Bool.and_eq_true, decide_eq_true_eq]; omega)]
    simp only [Option.some.injEq, Prod.mk.injEq, digitVal, and_true]
    all_goals omega

lemma readDay_two (d1 d2 : Char) (rest : List Char)
    (h1 : isDig d1 = true) (h2 : isDig d2 = true)
    (hlo : 1 ≤ 10 * digitVal d1 + digitVal d2)
    (hhi : 10 * digitVal d1 + digitVal d2 ≤ 31) :
    readDay (d1 :: d2 :: rest) = some (10 * digitVal d1 + digitVal d2, rest) := by
  have hb1 := isDig_bounds h1
  have hb2 := isDig_bounds h2
  simp only [digitVal] at hlo hhi
  have hcase : d1.toNat = 48 ∨ d1.toNat = 49 ∨ d1.toNat = 50 ∨ d1.toNat = 51 := by omega
  rcases hcase with h | h | h | h
  · simp only [readDay]
    rw [if_neg (by omega),
      if_neg (by simp only [Bool.or_eq_true, decide_eq_true_eq]; omega), if_pos h,
      if_pos (by simp only [Bool.and_eq_true, decide_eq_true_eq]; omega)]
    simp only [Option.some.injEq, Prod.mk.injEq, digitVal, and_true]
    all_goals omega
  · simp only [readDay]
    rw [if_neg (by omega),
      if_pos (by simp only [Bool.or_eq_true, decide_eq_true_eq]; omega), if_pos h2]
  · simp only [readDay]
    rw [if_neg (by omega),
      if_pos (by simp only [Bool.or_eq_true, decide_eq_true_eq]; omega), if_pos h2]
  · simp only [readDay]
    rw [if_pos h,
      if_pos (by simp only [Bool.or_eq_true, decide_eq_true_eq]; omega)]
    simp only [Option.some.injEq, Prod.mk.injEq, digitVal, and_true]
    all_goals omega

/-- Every exact in-range `YYYY-MM-DD` string is accepted by the strptime
embedding: the zero-padded two-digit month and day always take the
two-character regex branches. -/
lemma exactYMD_strptime (s : String) (h : exactYMD s = true) : strptime_Ymd s = true := by
  unfold exactYMD at h
  split at h
  · rename_i y1 y2 y3 y4 m1 m2 d1 d2 heq
    simp only [Bool.and_eq_true, decide_eq_true_eq] at h
    obtain ⟨⟨⟨⟨⟨⟨⟨⟨⟨⟨⟨⟨hg1, hg2⟩, hg3⟩, hg4⟩, hg5⟩, hg6⟩, hg7⟩, hg8⟩, hy⟩,
      hmlo⟩, hmhi⟩, hdlo⟩, hdhi⟩ := h
    unfold strptime_Ymd
    rw [heq]
    rw [readYear_digits _ _ _ _ _ hg1 hg2 hg3 hg4]
    dsimp only
    rw [if_pos rfl]
    rw [readMonth_two _ _ _ hg5 hg6 hmlo hmhi]
    dsimp only
    rw [if_pos rfl]
    rw [readDay_two _ _ _ hg7 hg8 hdlo (le_trans hdhi (daysInMonth_le_31 _ _))]
    dsimp only
    simp [hy, hdhi]
  · exact absurd h (by simp)

/-- C2 counterexample: the claim says every third field that is not an
exact `YYYY-MM-DD` form fails with the date error, but the non-padded
field `2024-1-1` — not of the exact form — is accepted and the whole
input parses. -/
theorem unpadded_date_accepted :
    exactYMD "2024-1-1" = false ∧
      parse_task_input "t | a | 2024-1-1 | low | x" =
        .ok { title := "t", assignee := "@a", due_date := "2024-1-1",
              priority := "low", tags := "x" } := by
  decide

/-- C2 amended: with valid earlier fields, `parse_task_input` fails with
the date error exactly when the third field is rejected by Python's
`strptime("%Y-%m-%d")` — which demands a four-digit year and an in-range
calendar date but also accepts single-digit (non-zero-padded) months and
days; in particular every exact valid `YYYY-MM-DD` string is accepted. -/
theorem date_field_strptime (raw t a d p g : String)
    (hparts : (pySplitPipe raw).map pyStrip = [t, a, d, p, g]) (ht : t ≠ "") :
    (parse_task_input raw = .error bad_date_message ↔ strptime_Ymd d = false) ∧
      (exactYMD d = true → parse_task_input raw ≠ .error bad_date_message) := by
  have hchar := parse_task_input_characterization raw
  have hne : strptime_Ymd d = true → parse_task_input raw ≠ .error bad_date_message := by
    intro hd he
    by_cases hp1 : strLower p = "low"
    · rw [(hchar.2 t a d p g hparts).2.2.2 ht hd (Or.inl hp1)] at he
      exact absurd he (by simp)
    by_cases hp2 : strLower p = "medium"
    · rw [(hchar.2 t a d p g hparts).2.2.2 ht hd (Or.inr (Or.inl hp2))] at he
      exact absurd he (by simp)
    by_cases hp3 : strLower p = "high"
    · rw [(hchar.2 t a d p g hparts).2.2.2 ht hd (Or.inr (Or.inr hp3))] at he
      exact absurd he (by simp)
    · rw [(hchar.2 t a d p g hparts).2.2.1 ht hd hp1 hp2 hp3] at he
      injection he with he2
      exact absurd he2 (by decide)
  refine ⟨⟨?_, (hchar.2 t a d p g hparts).2.1 ht⟩,
    fun hex => hne (exactYMD_strptime d hex)⟩
  intro he
  cases hsd : strptime_Ymd d
  · rfl
  · exact absurd he (hne hsd)

/-- C2 amended witness: on the input with third field `2024-13-01` the
date error is equivalent to strptime rejecting `2024-13-01`. -/
theorem date_field_strptime_witness :
    parse_task_input "t | a | 2024-13-01 | low | x" = .error bad_date_message ↔
      strptime_Ymd "2024-13-01" = false :=
  (date_field_strptime "t | a | 2024-13-01 | low | x" "t" "a" "2024-13-01" "low" "x"
    (by decide) (by decide)).1

end Bot
